import Mathlib

/-!
Verification of the RabbitMQ backend adapter of a message-queue client
library (`MQClient/backends/rabbitmq.py`), via a shallow embedding.

The adapter's functions are transcribed as pure Lean functions.  Broker
interaction is made explicit:

* the items produced by `channel.consume(queue, inactivity_timeout=...)`
  become a `List StreamItem` stored in the channel — a delivered message
  `(method_frame, header_frame, body)`, an inactivity-timeout item whose
  method frame is absent (`(None, None, None)` in pika), or a point at which
  the underlying stream raises;
* the calls the adapter makes against the broker (`basic_ack`, `basic_nack`,
  `cancel`, `basic_publish`, `queue_declare`, `confirm_delivery`,
  `basic_qos`, `connection.close`) become an `Event` trace;
* the caller of the generator is modelled by a reaction function
  `Nat → Reaction` giving, for the n-th yielded message, whether the caller
  returns from the yield normally (`ok`), raises an exception into the
  generator (`throwErr`, Python `gen.throw`), or closes the generator
  (`stopIter`, Python `GeneratorExit` on `break`/close, which is not an
  `Exception` and so is not caught by the `except Exception` clause);
* `raise RuntimeError("queue is not connected")` becomes an
  `Except.error` result.
-/

namespace MQClient

/-- Modelled from the spec: the `Message` record of `backend_interface`
(not under the sources provided): an immutable pair of a backend-assigned
message id (an integer delivery tag for RabbitMQ) and an opaque byte
payload.  Constructed in the adapter as
`Message(method_frame.delivery_tag, body)`. -/
structure Message where
  msg_id : Nat
  data : List Nat
  deriving DecidableEq, Repr

/-- One item produced by the pika `channel.consume` iterator:
a delivered message (method frame present, carrying the delivery tag and
body), an inactivity-timeout item (`(None, None, None)`: no method frame),
or the point at which the underlying stream raises an upstream error. -/
inductive StreamItem where
  | msgItem (tag : Nat) (body : List Nat)
  | timeoutItem
  | errorItem
  deriving DecidableEq, Repr

/-- Broker-visible calls issued by the adapter code. -/
inductive Event where
  | ack (tag : Nat)
  | nack (tag : Nat)
  | cancel
  | publish (routing_key : String) (body : List Nat)
  | queue_declare (queue : String) (durable : Bool)
  | confirm_delivery
  | qos (prefetch_count : Nat) (global_qos : Bool)
  | connection_close
  deriving DecidableEq, Repr

/-- State of a pika channel, as far as the adapter observes it: the item
sequence its `consume` iterator will produce, and the
`(delivery_tag, body)` pair its `basic_get` would return (`none` when the
broker reports no message, i.e. no method frame). -/
structure Channel where
  stream : List StreamItem
  get_result : Option (Nat × List Nat)
  deriving DecidableEq, Repr

/-- State of a pika blocking connection, as far as `RabbitMQ.close`
observes it. -/
structure PikaConnection where
  is_closed : Bool
  is_closing : Bool
  deriving DecidableEq, Repr

/-- Errors raised by the adapter code itself. -/
inductive RQError where
  | runtimeError (msg : String)
  deriving DecidableEq, Repr

/-- The error `RuntimeError("queue is not connected")`. -/
def notConnectedError : RQError := RQError.runtimeError "queue is not connected"

/-- The `RabbitMQ` raw-queue object (base class of `RabbitMQPub` and
`RabbitMQSub`; the subclasses add no fields — `RabbitMQSub.__init__` only
re-assigns `consumer_id` and `prefetch`, which the base `__init__` already
set). -/
structure RabbitMQ where
  address : String
  queue : String
  connection : Option PikaConnection
  channel : Option Channel
  consumer_id : Option Nat
  prefetch : Nat
  deriving DecidableEq, Repr

/-- `RabbitMQ.__init__(address, queue)`: connection and channel unset,
prefetch 1. -/
def RabbitMQ.init (address queue : String) : RabbitMQ :=
  { address := address, queue := queue, connection := none, channel := none,
    consumer_id := none, prefetch := 1 }

/-- `RabbitMQ.connect`: opens a blocking connection and obtains a channel
from it.  The channel state (what the broker will deliver on it) is a
parameter of the model. -/
def RabbitMQ.connect (q : RabbitMQ) (ch : Channel) : RabbitMQ :=
  { q with connection := some ⟨false, false⟩, channel := some ch }

/-- `RabbitMQ.close`: closes the connection when it exists and is neither
closed nor closing; the `channel` attribute is left untouched. -/
def RabbitMQ.close (q : RabbitMQ) : RabbitMQ × List Event :=
  match q.connection with
  | none => (q, [])
  | some c =>
    if c.is_closed = false ∧ c.is_closing = false then
      ({ q with connection := some ⟨true, c.is_closing⟩ }, [Event.connection_close])
    else
      (q, [])

/-- `RabbitMQPub.connect`: the base connect, then
`queue_declare(queue=self.queue, durable=False)` and `confirm_delivery()`. -/
def RabbitMQPub.connect (q : RabbitMQ) (ch : Channel) : RabbitMQ × List Event :=
  (RabbitMQ.connect q ch, [Event.queue_declare q.queue false, Event.confirm_delivery])

/-- `RabbitMQSub.connect`: the base connect, then
`basic_qos(prefetch_count=self.prefetch, global_qos=True)`. -/
def RabbitMQSub.connect (q : RabbitMQ) (ch : Channel) : RabbitMQ × List Event :=
  (RabbitMQ.connect q ch, [Event.qos q.prefetch true])

/-- `create_pub_queue(address, name)`: construct and connect a publisher. -/
def create_pub_queue (address name : String) (ch : Channel) : RabbitMQ × List Event :=
  RabbitMQPub.connect (RabbitMQ.init address name) ch

/-- `create_sub_queue(address, name, prefetch=1)`: construct, set
`q.prefetch = prefetch`, and connect a subscriber. -/
def create_sub_queue (address name : String) (prefetch : Nat) (ch : Channel) :
    RabbitMQ × List Event :=
  RabbitMQSub.connect { RabbitMQ.init address name with prefetch := prefetch } ch

/-- `send_message(queue, msg)`: raise `RuntimeError("queue is not
connected")` when the channel is unset, else `basic_publish` with the
empty exchange, the queue name as routing key, and the message body. -/
def send_message (q : RabbitMQ) (msg : List Nat) : Except RQError (List Event) :=
  match q.channel with
  | none => Except.error notConnectedError
  | some _ => Except.ok [Event.publish q.queue msg]

/-- `get_message(queue)`: raise when the channel is unset, else
`basic_get(queue.queue)`; return a `Message` when a method frame is
present, `None` otherwise. -/
def get_message (q : RabbitMQ) : Except RQError (Option Message) :=
  match q.channel with
  | none => Except.error notConnectedError
  | some ch => Except.ok (ch.get_result.map (fun p => Message.mk p.1 p.2))

/-- `ack_message(queue, msg_id)`: raise when the channel is unset, else
`basic_ack(msg_id)`. -/
def ack_message (q : RabbitMQ) (msg_id : Nat) : Except RQError (List Event) :=
  match q.channel with
  | none => Except.error notConnectedError
  | some _ => Except.ok [Event.ack msg_id]

/-- How the caller of `message_generator` behaves at one yielded message:
return from the yield normally, raise an `Exception` into the generator,
or close the generator (`GeneratorExit`, e.g. by breaking out of the
loop — not caught by `except Exception`). -/
inductive Reaction where
  | ok
  | throwErr
  | stopIter
  deriving DecidableEq, Repr

/-- How a run of `message_generator` terminates: the loop ends normally
(inactivity timeout or stream exhausted), a caller exception is
re-raised (`propagate_error`), the underlying stream's error propagates,
or the caller closed the generator. -/
inductive Outcome where
  | normal
  | callerError
  | upstreamError
  | closed
  deriving DecidableEq, Repr

/-- Observable result of one run of `message_generator`: the messages it
yielded, the broker calls it issued (in order), and how it terminated. -/
structure GenResult where
  yielded : List Message
  events : List Event
  outcome : Outcome
  deriving DecidableEq, Repr

/-- The body of `message_generator`'s `try ... finally` block: iterate the
`consume` stream; break on a missing method frame; yield each message;
on a caller `Exception` nack and then re-raise or log per
`propagate_error`; otherwise ack when `auto_ack`; the `finally` clause
issues `channel.cancel()` on every path out of the loop.  The reaction
function is indexed by yield count, so it is shifted by one at each
yielded message. -/
def runGenAux (auto_ack propagate_error : Bool) (react : Nat → Reaction) :
    List StreamItem → GenResult
  | [] => ⟨[], [Event.cancel], Outcome.normal⟩
  | StreamItem.timeoutItem :: _ => ⟨[], [Event.cancel], Outcome.normal⟩
  | StreamItem.errorItem :: _ => ⟨[], [Event.cancel], Outcome.upstreamError⟩
  | StreamItem.msgItem tag body :: rest =>
    match react 0 with
    | Reaction.ok =>
      let r := runGenAux auto_ack propagate_error (fun i => react (i + 1)) rest
      ⟨Message.mk tag body :: r.yielded,
        (if auto_ack then [Event.ack tag] else []) ++ r.events, r.outcome⟩
    | Reaction.throwErr =>
      if propagate_error then
        ⟨[Message.mk tag body], [Event.nack tag, Event.cancel], Outcome.callerError⟩
      else
        let r := runGenAux auto_ack propagate_error (fun i => react (i + 1)) rest
        ⟨Message.mk tag body :: r.yielded, Event.nack tag :: r.events, r.outcome⟩
    | Reaction.stopIter => ⟨[Message.mk tag body], [Event.cancel], Outcome.closed⟩

/-- `message_generator(queue, timeout, auto_ack=True, propagate_error=True)`:
raise `RuntimeError("queue is not connected")` when the channel is unset
(in Python this happens at the generator's first advance, before any
message is yielded and before any broker interaction), else run the
consume loop on the channel's stream. -/
def message_generator (q : RabbitMQ) (timeout : Nat) (auto_ack propagate_error : Bool)
    (react : Nat → Reaction) : Except RQError GenResult :=
  match q.channel with
  | none => Except.error notConnectedError
  | some ch =>
    let _ := timeout
    Except.ok (runGenAux auto_ack propagate_error react ch.stream)

/-- Default of the `auto_ack` keyword of `message_generator`. -/
def message_generator_auto_ack_default : Bool := true

/-- Default of the `propagate_error` keyword of `message_generator`. -/
def message_generator_propagate_error_default : Bool := true

/-- The delivery tags acked in an event trace, in order. -/
def acksOf (events : List Event) : List Nat :=
  events.filterMap fun e =>
    match e with
    | Event.ack t => some t
    | _ => none

/-- The delivery tags nacked in an event trace, in order. -/
def nacksOf (events : List Event) : List Nat :=
  events.filterMap fun e =>
    match e with
    | Event.nack t => some t
    | _ => none

/-- Modelled from the spec: the tags of those yielded messages for which
"the caller returned from its yield without raising" — the messages the
spec says must be acked under `auto_ack`. -/
def specAckedTags (react : Nat → Reaction) : List Message → List Nat
  | [] => []
  | m :: ms =>
    if react 0 = Reaction.ok then m.msg_id :: specAckedTags (fun i => react (i + 1)) ms
    else specAckedTags (fun i => react (i + 1)) ms

/-- Modelled from the spec: the tags of those yielded messages on which
"the caller raises an exception into the generator" — the messages the
spec says must be nacked. -/
def specNackedTags (react : Nat → Reaction) : List Message → List Nat
  | [] => []
  | m :: ms =>
    if react 0 = Reaction.throwErr then m.msg_id :: specNackedTags (fun i => react (i + 1)) ms
    else specNackedTags (fun i => react (i + 1)) ms

/-- The caller that returns normally from every yield. -/
def okReact : Nat → Reaction := fun _ => Reaction.ok

/-- The caller that raises into the generator at every yield. -/
def throwAll : Nat → Reaction := fun _ => Reaction.throwErr

/-- The caller that raises into the generator at the yield with index `k`
(0-based) and returns normally from every other yield. -/
def throwAt (k : Nat) : Nat → Reaction :=
  fun i => if i = k then Reaction.throwErr else Reaction.ok

/-- A caller that raises into the generator at the first yield and then
behaves as `react` (shifted) afterwards. -/
def throwThen (react : Nat → Reaction) : Nat → Reaction :=
  fun i => if i = 0 then Reaction.throwErr else react i

/-- A stream item carrying the given tag and body. -/
def mkMsgItem (p : Nat × List Nat) : StreamItem := StreamItem.msgItem p.1 p.2

/-- The message the generator builds from the given tag and body. -/
def mkMsg (p : Nat × List Nat) : Message := Message.mk p.1 p.2

/-- A subscriber queue as built by `create_sub_queue`, whose channel will
deliver the given stream. -/
def connectedSub (stream : List StreamItem) : RabbitMQ :=
  (create_sub_queue "localhost" "queue0" 1 ⟨stream, none⟩).1

/-- Modelled from the spec: "configures per-consumer flow control so that
at most `prefetch` unacked messages may be outstanding" — in AMQP terms, a
`basic_qos` with the given prefetch count and the per-consumer (non-global)
scope. -/
def perConsumerFlowControl (events : List Event) (prefetch : Nat) : Prop :=
  Event.qos prefetch false ∈ events

/-- A publisher handle that was created (hence connected) and then closed. -/
def closedPub : RabbitMQ :=
  (RabbitMQ.close (create_pub_queue "localhost" "queue0" ⟨[], none⟩).1).1

/-! Helper lemmas about event traces. -/

lemma acksOf_nil : acksOf [] = [] := rfl

lemma acksOf_cons_ack (t : Nat) (es : List Event) :
    acksOf (Event.ack t :: es) = t :: acksOf es := rfl

lemma acksOf_cons_nack (t : Nat) (es : List Event) :
    acksOf (Event.nack t :: es) = acksOf es := rfl

lemma acksOf_cons_cancel (es : List Event) :
    acksOf (Event.cancel :: es) = acksOf es := rfl

lemma nacksOf_nil : nacksOf [] = [] := rfl

lemma nacksOf_cons_ack (t : Nat) (es : List Event) :
    nacksOf (Event.ack t :: es) = nacksOf es := rfl

lemma nacksOf_cons_nack (t : Nat) (es : List Event) :
    nacksOf (Event.nack t :: es) = t :: nacksOf es := rfl

lemma nacksOf_cons_cancel (es : List Event) :
    nacksOf (Event.cancel :: es) = nacksOf es := rfl

lemma acksOf_append (l1 l2 : List Event) :
    acksOf (l1 ++ l2) = acksOf l1 ++ acksOf l2 := by
  simp [acksOf]

lemma nacksOf_append (l1 l2 : List Event) :
    nacksOf (l1 ++ l2) = nacksOf l1 ++ nacksOf l2 := by
  simp [nacksOf]

lemma acksOf_ack_map (pre : List (Nat × List Nat)) :
    acksOf (pre.map fun p => Event.ack p.1) = pre.map Prod.fst := by
  induction pre with
  | nil => rfl
  | cons p pre ih => simp [acksOf_cons_ack, ih]

lemma nacksOf_ack_map (pre : List (Nat × List Nat)) :
    nacksOf (pre.map fun p => Event.ack p.1) = [] := by
  induction pre with
  | nil => rfl
  | cons p pre ih => simp [nacksOf_cons_ack, ih]

/-- `message_generator` on a queue built by `create_sub_queue` runs the
consume loop on the channel's stream. -/
lemma message_generator_connectedSub (s : List StreamItem) (t0 : Nat)
    (aa pe : Bool) (react : Nat → Reaction) :
    message_generator (connectedSub s) t0 aa pe react
      = Except.ok (runGenAux aa pe react s) := rfl

/-- Under `auto_ack`, the tags acked during a run are exactly the tags of
the yielded messages from whose yield the caller returned without raising,
in order. -/
lemma acksOf_runGenAux (pe : Bool) (react : Nat → Reaction) (s : List StreamItem) :
    acksOf (runGenAux true pe react s).events
      = specAckedTags react (runGenAux true pe react s).yielded := by
  induction s generalizing react with
  | nil => rfl
  | cons item rest ih =>
    cases item with
    | timeoutItem => rfl
    | errorItem => rfl
    | msgItem tag body =>
      cases hr : react 0 with
      | ok =>
        simp only [runGenAux, hr, if_true, reduceIte]
        simp only [List.cons_append, List.nil_append, acksOf_cons_ack,
          specAckedTags, hr, if_true, reduceIte]
        exact congrArg (tag :: ·) (ih (fun i => react (i + 1)))
      | throwErr =>
        cases pe with
        | true =>
          simp only [runGenAux, hr, if_true, reduceIte]
          simp [specAckedTags, hr, acksOf]
        | false =>
          simp only [runGenAux, hr, reduceIte]
          simp only [acksOf_cons_nack, specAckedTags, hr, reduceIte]
          exact ih (fun i => react (i + 1))
      | stopIter =>
        simp only [runGenAux, hr]
        simp [specAckedTags, hr, acksOf]

/-- The tags nacked during a run are exactly the tags of the yielded
messages on which the caller raised an exception into the generator, in
order — for every `auto_ack` and every `propagate_error`. -/
lemma nacksOf_runGenAux (aa pe : Bool) (react : Nat → Reaction) (s : List StreamItem) :
    nacksOf (runGenAux aa pe react s).events
      = specNackedTags react (runGenAux aa pe react s).yielded := by
  induction s generalizing react with
  | nil => rfl
  | cons item rest ih =>
    cases item with
    | timeoutItem => rfl
    | errorItem => rfl
    | msgItem tag body =>
      cases hr : react 0 with
      | ok =>
        simp only [runGenAux, hr]
        rw [nacksOf_append]
        have haa : nacksOf (if aa then [Event.ack tag] else []) = [] := by
          cases aa <;> rfl
        simp only [haa, List.nil_append, specNackedTags, hr, reduceIte]
        exact ih (fun i => react (i + 1))
      | throwErr =>
        cases pe with
        | true =>
          simp only [runGenAux, hr, if_true, reduceIte]
          simp [specNackedTags, hr, nacksOf]
        | false =>
          simp only [runGenAux, hr, reduceIte]
          simp only [nacksOf_cons_nack, specNackedTags, hr, reduceIte]
          exact congrArg (tag :: ·) (ih (fun i => react (i + 1)))
      | stopIter =>
        simp only [runGenAux, hr]
        simp [specNackedTags, hr, nacksOf]

/-- For a caller that never raises, the spec-side acked tags are all the
yielded tags. -/
lemma specAckedTags_all_ok (react : Nat → Reaction)
    (h : ∀ i, react i = Reaction.ok) (ms : List Message) :
    specAckedTags react ms = ms.map Message.msg_id := by
  induction ms generalizing react with
  | nil => rfl
  | cons m ms ih =>
    simp only [specAckedTags, h 0, reduceIte, List.map_cons]
    exact congrArg (m.msg_id :: ·) (ih (fun i => react (i + 1)) (fun i => h (i + 1)))

/-- For a caller that never raises, the spec-side nacked tags are none. -/
lemma specNackedTags_all_ok (react : Nat → Reaction)
    (h : ∀ i, react i = Reaction.ok) (ms : List Message) :
    specNackedTags react ms = [] := by
  induction ms generalizing react with
  | nil => rfl
  | cons m ms ih =>
    simp only [specNackedTags, h 0, reduceIte]
    exact ih (fun i => react (i + 1)) (fun i => h (i + 1))

/-- Running the generator over a prefix of delivered messages from whose
yields the caller returns normally: each prefix message is yielded (and
acked when `auto_ack`), then the run continues on the remaining stream
with the reaction indices shifted past the prefix. -/
lemma runGenAux_msgs_append (aa pe : Bool) (react : Nat → Reaction)
    (pre : List (Nat × List Nat)) (tail : List StreamItem)
    (h : ∀ i, i < pre.length → react i = Reaction.ok) :
    runGenAux aa pe react (pre.map mkMsgItem ++ tail) =
      ⟨pre.map mkMsg ++ (runGenAux aa pe (fun i => react (i + pre.length)) tail).yielded,
       (if aa then pre.map (fun p => Event.ack p.1) else []) ++
         (runGenAux aa pe (fun i => react (i + pre.length)) tail).events,
       (runGenAux aa pe (fun i => react (i + pre.length)) tail).outcome⟩ := by
  induction pre generalizing react with
  | nil =>
    cases aa <;> simp
  | cons p pre ih =>
    have h0 : react 0 = Reaction.ok := h 0 (Nat.succ_pos _)
    have ih' := ih (fun i => react (i + 1)) (fun i hi => h (i + 1) (Nat.succ_lt_succ hi))
    simp only [] at ih'
    have harith : (fun i => react (i + pre.length + 1)) = fun i => react (i + (p :: pre).length) := by
      funext i
      have hadd : i + pre.length + 1 = i + (p :: pre).length := by
        simp [List.length_cons]
        omega
      rw [hadd]
    rw [harith] at ih'
    simp only [List.map_cons, List.cons_append, mkMsgItem, runGenAux, h0, List.append_eq]
    rw [ih']
    cases aa <;> simp [mkMsg]

/-- The event trace of every run of the consume loop ends with the
`finally`-clause consumer cancellation. -/
lemma runGenAux_events_getLast (aa pe : Bool) (react : Nat → Reaction)
    (s : List StreamItem) :
    ((runGenAux aa pe react s).events).getLast? = some Event.cancel := by
  induction s generalizing react with
  | nil => rfl
  | cons item rest ih =>
    cases item with
    | timeoutItem => rfl
    | errorItem => rfl
    | msgItem tag body =>
      cases hr : react 0 with
      | ok =>
        have hlast := ih (fun i => react (i + 1))
        have hne : (runGenAux aa pe (fun i => react (i + 1)) rest).events ≠ [] := by
          intro hnil
          rw [hnil] at hlast
          exact Option.noConfusion hlast
        simp only [runGenAux, hr]
        rw [List.getLast?_append_of_ne_nil _ hne]
        exact hlast
      | throwErr =>
        have hlast := ih (fun i => react (i + 1))
        have hne : (runGenAux aa pe (fun i => react (i + 1)) rest).events ≠ [] := by
          intro hnil
          rw [hnil] at hlast
          exact Option.noConfusion hlast
        simp only [runGenAux, hr]
        cases pe with
        | true => rfl
        | false =>
          rw [if_neg Bool.false_ne_true]
          rw [show Event.nack tag :: (runGenAux aa false (fun i => react (i + 1)) rest).events
                = [Event.nack tag] ++ (runGenAux aa false (fun i => react (i + 1)) rest).events
              from rfl]
          rw [List.getLast?_append_of_ne_nil _ hne]
          exact hlast
      | stopIter =>
        simp only [runGenAux, hr]
        rfl

/-!  Claim theorems. -/

/-- C1, counterexample: with `auto_ack = true` and `propagate_error = false`,
a run in which the caller raises on the single yielded message ends the
generator scope normally having yielded one message, yet the adapter
received zero acks and one nack — not "exactly k acks and zero nacks". -/
theorem mq_C1_counterexample :
    message_generator (connectedSub [StreamItem.msgItem 7 [1], StreamItem.timeoutItem]) 1
        true false throwAll
      = Except.ok { yielded := [Message.mk 7 [1]],
                    events := [Event.nack 7, Event.cancel],
                    outcome := Outcome.normal }
    ∧ ¬ ((acksOf [Event.nack 7, Event.cancel]).length = 1
          ∧ (nacksOf [Event.nack 7, Event.cancel]).length = 0) :=
  ⟨rfl, by decide⟩

/-- C1, amended: with `auto_ack = true`, a yielded message is acked at the
adapter if and only if the caller returned from its yield without raising
(the acked tags are exactly the tags of the ok-yields, in order); in
particular, if the caller returns from every yield without raising — so
that the scope also ends normally unless the stream itself errors — then
having yielded k messages exactly k acks and zero nacks were issued. -/
theorem mq_C1_ack_iff :
    (∀ (pe : Bool) (s : List StreamItem) (react : Nat → Reaction),
        message_generator (connectedSub s) 1 true pe react
          = Except.ok (runGenAux true pe react s)
        ∧ acksOf (runGenAux true pe react s).events
            = specAckedTags react (runGenAux true pe react s).yielded)
    ∧ (∀ (pe : Bool) (s : List StreamItem),
        acksOf (runGenAux true pe okReact s).events
          = (runGenAux true pe okReact s).yielded.map Message.msg_id
        ∧ (acksOf (runGenAux true pe okReact s).events).length
            = (runGenAux true pe okReact s).yielded.length
        ∧ nacksOf (runGenAux true pe okReact s).events = []) := by
  constructor
  · intro pe s react
    exact ⟨rfl, acksOf_runGenAux pe react s⟩
  · intro pe s
    have h1 := acksOf_runGenAux pe okReact s
    rw [specAckedTags_all_ok okReact (fun _ => rfl)] at h1
    have h2 := nacksOf_runGenAux true pe okReact s
    rw [specNackedTags_all_ok okReact (fun _ => rfl)] at h2
    exact ⟨h1, by rw [h1, List.length_map], h2⟩

/-- C2: in every run, for every value of `auto_ack` and of
`propagate_error`, the tags nacked at the adapter are exactly the tags of
the yielded (in-flight) messages on which the caller raised an exception
into the generator, in order. -/
theorem mq_C2_nack_iff_caller_raises (aa pe : Bool) (s : List StreamItem)
    (react : Nat → Reaction) :
    message_generator (connectedSub s) 1 aa pe react
      = Except.ok (runGenAux aa pe react s)
    ∧ nacksOf (runGenAux aa pe react s).events
        = specNackedTags react (runGenAux aa pe react s).yielded :=
  ⟨rfl, nacksOf_runGenAux aa pe react s⟩

/-- C3: with `propagate_error = false`, when the caller raises on a yielded
message the generator nacks it, suppresses the exception, and continues
consuming the rest of the stream with the caller's subsequent reactions:
the run is the nack followed by the run over the remaining stream items,
so the nacked message itself is not re-yielded by this generator (any
reappearance can come only from the broker redelivering it on the
stream). -/
theorem mq_C3_suppress_and_resume (aa : Bool) (t : Nat) (b : List Nat)
    (rest : List StreamItem) (react : Nat → Reaction) :
    message_generator (connectedSub (StreamItem.msgItem t b :: rest)) 1 aa false
        (throwThen react)
      = Except.ok
          { yielded := Message.mk t b ::
              (runGenAux aa false (fun i => react (i + 1)) rest).yielded,
            events := Event.nack t ::
              (runGenAux aa false (fun i => react (i + 1)) rest).events,
            outcome := (runGenAux aa false (fun i => react (i + 1)) rest).outcome } := by
  rw [message_generator_connectedSub]
  have hfun : (fun i => throwThen react (i + 1)) = fun i => react (i + 1) := by
    funext i
    simp [throwThen]
  have h0 : throwThen react 0 = Reaction.throwErr := rfl
  simp only [runGenAux, h0, hfun]
  rw [if_neg Bool.false_ne_true]

/-- C4: with `auto_ack = true` and `propagate_error = true`, when the
caller returns normally from the first k−1 yields and raises on the k-th
(the stream having delivered at least k messages), the generator's scope
exits with the adapter having received exactly the k−1 acks for messages
1..k−1 followed by exactly one nack for message k, and the consumer
cancelled; here k = pre.length + 1. -/
theorem mq_C4_acks_before_nack (pre : List (Nat × List Nat)) (t : Nat) (b : List Nat)
    (rest : List StreamItem) :
    message_generator
        (connectedSub (pre.map mkMsgItem ++ StreamItem.msgItem t b :: rest)) 1
        true true (throwAt pre.length)
      = Except.ok { yielded := pre.map mkMsg ++ [Message.mk t b],
                    events := pre.map (fun p => Event.ack p.1) ++ [Event.nack t, Event.cancel],
                    outcome := Outcome.callerError }
    ∧ acksOf (pre.map (fun p => Event.ack p.1) ++ [Event.nack t, Event.cancel])
        = pre.map Prod.fst
    ∧ (acksOf (pre.map (fun p => Event.ack p.1) ++ [Event.nack t, Event.cancel])).length
        = pre.length
    ∧ nacksOf (pre.map (fun p => Event.ack p.1) ++ [Event.nack t, Event.cancel]) = [t]
    ∧ (nacksOf (pre.map (fun p => Event.ack p.1) ++ [Event.nack t, Event.cancel])).length
        = 1 := by
  have hacks : acksOf (pre.map (fun p => Event.ack p.1) ++ [Event.nack t, Event.cancel])
      = pre.map Prod.fst := by
    rw [acksOf_append, acksOf_ack_map]
    simp [acksOf]
  have hnacks : nacksOf (pre.map (fun p => Event.ack p.1) ++ [Event.nack t, Event.cancel])
      = [t] := by
    rw [nacksOf_append, nacksOf_ack_map]
    rfl
  refine ⟨?_, hacks, by rw [hacks, List.length_map], hnacks, by simp [hnacks]⟩
  rw [message_generator_connectedSub]
  have hok : ∀ i, i < pre.length → throwAt pre.length i = Reaction.ok := by
    intro i hi
    simp [throwAt, Nat.ne_of_lt hi]
  rw [runGenAux_msgs_append true true _ pre _ hok]
  have htail : runGenAux true true (fun i => throwAt pre.length (i + pre.length))
        (StreamItem.msgItem t b :: rest)
      = { yielded := [Message.mk t b],
          events := [Event.nack t, Event.cancel],
          outcome := Outcome.callerError } := by
    simp [runGenAux, throwAt]
  rw [htail]
  simp

/-- C5: the consume loop's `finally` clause cancels the broker-side
consumer on every termination path (the event trace of every run ends with
the cancel); and when the underlying stream raises after some messages
from whose yields the caller returned normally, the run terminates with
the upstream error for every value of `auto_ack` and — since upstream
errors bypass the caller-exception handler — of `propagate_error`, with
the consumer still cancelled. -/
theorem mq_C5_upstream_propagation_and_cancel :
    (∀ (aa pe : Bool) (react : Nat → Reaction) (s : List StreamItem),
        ((runGenAux aa pe react s).events).getLast? = some Event.cancel)
    ∧ (∀ (aa pe : Bool) (react : Nat → Reaction) (rest : List StreamItem),
        runGenAux aa pe react (StreamItem.errorItem :: rest)
          = { yielded := [], events := [Event.cancel], outcome := Outcome.upstreamError })
    ∧ (∀ (aa pe : Bool) (pre : List (Nat × List Nat)) (rest : List StreamItem),
        message_generator
            (connectedSub (pre.map mkMsgItem ++ StreamItem.errorItem :: rest)) 1
            aa pe okReact
          = Except.ok
              { yielded := pre.map mkMsg,
                events := (if aa then pre.map (fun p => Event.ack p.1) else []) ++
                  [Event.cancel],
                outcome := Outcome.upstreamError }) := by
  refine ⟨runGenAux_events_getLast, ?_, ?_⟩
  · intro aa pe react rest
    rfl
  · intro aa pe pre rest
    rw [message_generator_connectedSub]
    rw [runGenAux_msgs_append aa pe okReact pre _ (fun i _ => rfl)]
    simp [runGenAux]

/-- C6, counterexample: the `propagate_error` keyword of
`message_generator` defaults to `true`, not `false`: with the defaults in
force, a caller exception on a yielded message is re-raised (the run ends
in the caller error) rather than suppressed. -/
theorem mq_C6_counterexample :
    message_generator_propagate_error_default ≠ false
    ∧ message_generator (connectedSub [StreamItem.msgItem 0 []]) 1
          message_generator_auto_ack_default message_generator_propagate_error_default
          throwAll
        = Except.ok { yielded := [Message.mk 0 []],
                      events := [Event.nack 0, Event.cancel],
                      outcome := Outcome.callerError } :=
  ⟨by decide, rfl⟩

/-- C6, amended: when the caller does not specify it, the
`propagate_error` parameter of the receive path's `message_generator`
defaults to `true` (caller-side exceptions are re-raised after the nack). -/
theorem mq_C6_propagate_error_default :
    message_generator_propagate_error_default = true
    ∧ (∀ (t : Nat) (b : List Nat) (rest : List StreamItem),
        message_generator (connectedSub (StreamItem.msgItem t b :: rest)) 1 true
            message_generator_propagate_error_default throwAll
          = Except.ok { yielded := [Message.mk t b],
                        events := [Event.nack t, Event.cancel],
                        outcome := Outcome.callerError }) :=
  ⟨rfl, fun _ _ _ => rfl⟩

/-- C7: a stream item whose method frame is absent signals the inactivity
timeout: whatever the caller's reactions and whatever follows on the
stream, the loop breaks there — no further message is yielded, the
consumer is cancelled, and the generator terminates normally. -/
theorem mq_C7_inactivity_timeout :
    (∀ (aa pe : Bool) (react : Nat → Reaction) (rest : List StreamItem),
        runGenAux aa pe react (StreamItem.timeoutItem :: rest)
          = { yielded := [], events := [Event.cancel], outcome := Outcome.normal })
    ∧ (∀ (aa pe : Bool) (pre : List (Nat × List Nat)) (rest : List StreamItem),
        message_generator
            (connectedSub (pre.map mkMsgItem ++ StreamItem.timeoutItem :: rest)) 1
            aa pe okReact
          = Except.ok
              { yielded := pre.map mkMsg,
                events := (if aa then pre.map (fun p => Event.ack p.1) else []) ++
                  [Event.cancel],
                outcome := Outcome.normal }) := by
  constructor
  · intro aa pe react rest
    rfl
  · intro aa pe pre rest
    rw [message_generator_connectedSub]
    rw [runGenAux_msgs_append aa pe okReact pre _ (fun i _ => rfl)]
    simp [runGenAux]

/-- C8, counterexample: `create_sub_queue` does not configure per-consumer
flow control: the only QoS call it issues is `basic_qos(prefetch_count,
global_qos=True)`, i.e. channel-wide scope, so no per-consumer
(non-global) QoS call is among its broker events. -/
theorem mq_C8_counterexample :
    ¬ perConsumerFlowControl (create_sub_queue "localhost" "queue0" 3 ⟨[], none⟩).2 3
    ∧ (create_sub_queue "localhost" "queue0" 3 ⟨[], none⟩).2 = [Event.qos 3 true] := by
  constructor
  · intro hmem
    simp [perConsumerFlowControl, create_sub_queue, RabbitMQSub.connect,
      RabbitMQ.connect, RabbitMQ.init] at hmem
  · rfl

/-- C8, amended: for every address, name and prefetch, `create_sub_queue`
establishes the subscribe connection and issues exactly one flow-control
call, a channel-wide `basic_qos` with `prefetch_count = prefetch` and
`global_qos = true` (so at most `prefetch` unacked messages may be
outstanding on the handle's channel), and the returned handle carries the
given prefetch value and the connected channel. -/
theorem mq_C8_global_qos (address name : String) (prefetch : Nat) (ch : Channel) :
    (create_sub_queue address name prefetch ch).2 = [Event.qos prefetch true]
    ∧ (create_sub_queue address name prefetch ch).1.prefetch = prefetch
    ∧ (create_sub_queue address name prefetch ch).1.channel = some ch :=
  ⟨rfl, rfl, rfl⟩

/-- C9, counterexample: after `close()` the handle's connection is closed
but its `channel` attribute is left set, so a subsequent `send_message`
does not fail with the library's "queue is not connected" error — it
passes the guard and issues the publish to the underlying channel. -/
theorem mq_C9_counterexample :
    closedPub.connection = some { is_closed := true, is_closing := false }
    ∧ send_message closedPub [1, 2] = Except.ok [Event.publish "queue0" [1, 2]]
    ∧ send_message closedPub [1, 2] ≠ Except.error notConnectedError := by
  refine ⟨rfl, rfl, ?_⟩
  intro h
  exact Except.noConfusion h

/-- C9, amended: `send_message` fails with the "queue is not connected"
error exactly when the handle's channel was never set (the handle was
never connected); `close()` leaves the channel set, so a send on a closed
handle is not intercepted by the library and is handed to the underlying
channel as a publish. -/
theorem mq_C9_send_after_close (address name : String) (ch : Channel) (msg : List Nat) :
    ((RabbitMQ.close (create_pub_queue address name ch).1).1).channel = some ch
    ∧ send_message ((RabbitMQ.close (create_pub_queue address name ch).1).1) msg
        = Except.ok [Event.publish name msg]
    ∧ (∀ q : RabbitMQ, send_message q msg = Except.error notConnectedError ↔ q.channel = none) := by
  refine ⟨rfl, rfl, ?_⟩
  intro q
  constructor
  · intro hsend
    cases hq : q.channel with
    | none => rfl
    | some c =>
      rw [send_message, hq] at hsend
      exact Except.noConfusion hsend
  · intro hq
    rw [send_message, hq]

/-- C10: a handle that was constructed but never connected has no channel,
and each of `send_message`, `get_message`, `ack_message` and
`message_generator` raises the "queue is not connected" error without
issuing any broker call; in particular the generator produces this error
at its first advance and yields no messages. -/
theorem mq_C10_not_connected (address name : String) (msg : List Nat) (tag t0 : Nat)
    (aa pe : Bool) (react : Nat → Reaction) :
    (RabbitMQ.init address name).channel = none
    ∧ send_message (RabbitMQ.init address name) msg = Except.error notConnectedError
    ∧ get_message (RabbitMQ.init address name) = Except.error notConnectedError
    ∧ ack_message (RabbitMQ.init address name) tag = Except.error notConnectedError
    ∧ message_generator (RabbitMQ.init address name) t0 aa pe react
        = Except.error notConnectedError :=
  ⟨rfl, rfl, rfl, rfl, rfl⟩

end MQClient
